import Mathlib

/-!
Verification of the Discord Gateway status client (discord.py, config.py,
dsclass.py) against its natural-language specification.

The Python source is shallowly embedded: dictionaries with fixed keys become
structures with Option fields, floats become rationals (all values involved
are exact dyadic rationals, so the model is exact), stateful methods become
explicit state-passing functions, and the external zlib streaming
decompressor and the JSON parser are abstracted as function parameters.
-/

-- ═══════════════════════════════════════════════════════════
-- Python-semantics helpers
-- ═══════════════════════════════════════════════════════════

/-- Python `int()` applied to an exact rational: truncation toward zero. -/
def pyInt (q : ℚ) : ℤ :=
  if 0 ≤ q.num then ((q.num.toNat / q.den : ℕ) : ℤ)
  else -(((-q.num).toNat / q.den : ℕ) : ℤ)

/-- Python `min(a, b)`: returns the first argument on ties. -/
def pyMin (a b : ℚ) : ℚ := if a ≤ b then a else b

/-- Python `max(a, b)` on integers: returns the first argument on ties. -/
def pyMax (a b : ℤ) : ℤ := if a ≥ b then a else b

/-- Python truthiness of an optional string: `None` and `""` are falsy. -/
def pyTruthy : Option String → Bool
  | none => false
  | some s => !s.isEmpty

-- ═══════════════════════════════════════════════════════════
-- Constants from dsclass.py
-- ═══════════════════════════════════════════════════════════

namespace OpCode

def DISPATCH : Nat := 0

def HEARTBEAT : Nat := 1

def IDENTIFY : Nat := 2

def PRESENCE_UPDATE : Nat := 3

def RESUME : Nat := 6

def RECONNECT : Nat := 7

def INVALID_SESSION : Nat := 9

def HELLO : Nat := 10

def HEARTBEAT_ACK : Nat := 11

end OpCode

/-- Bytes `b"\x00\x00\xff\xff"`, the zlib sync-flush marker (dsclass.py). -/
def ZLIB_SUFFIX : List Nat := [0x00, 0x00, 0xFF, 0xFF]

/-- Fatal close codes 4004 / 4013 / 4014 (dsclass.py). -/
def FATAL_CLOSE_CODES : List Nat := [4004, 4013, 4014]

-- ═══════════════════════════════════════════════════════════
-- AppConfig (config.py): the accessor-level view of the YAML file.
-- Field defaults mirror the accessor defaults in config.py.
-- ═══════════════════════════════════════════════════════════

structure AppConfig where
  token : String := ""
  game_name : String := "Custom Game"
  activity_type : Int := 0
  details : String := ""
  state : String := ""
  application_id : String := ""
  large_image_key : String := ""
  large_image_text : String := ""
  small_image_key : String := ""
  small_image_text : String := ""
  buttons : List (String × String) := []
  start_time_mode : String := "auto"
  custom_elapsed_minutes : Int := 0
  auto_save_minutes : ℚ := 0
  status : String := "online"
  reconnect_delay : ℚ := 5
  max_reconnect_attempts : Nat := 0
deriving DecidableEq

/-- `AppConfig.config_reload_interval` (config.py lines 184-187):
`max(int(self._raw.get("config_reload_interval", 60)), 15)`.
The argument is the raw configured value, `none` when the key is absent. -/
def config_reload_interval (v : Option Int) : Int :=
  pyMax (v.getD 60) 15

/-- The start-timestamp initialization in `GatewayClient.__init__`
(discord.py lines 258-265): restore from `auto_save_minutes` only in
`auto` mode with a positive saved value, else use the current time. -/
def initStartTs (c : AppConfig) (now : ℚ) : ℚ :=
  if c.start_time_mode = "auto" ∧ 0 < c.auto_save_minutes then
    now - c.auto_save_minutes * 60
  else now

-- ═══════════════════════════════════════════════════════════
-- Presence builder (discord.py: build_activity / build_presence_payload)
-- ═══════════════════════════════════════════════════════════

/-- The `assets` sub-dictionary of an Activity, with a field per optional key. -/
structure ActivityAssets where
  large_image : Option String := none
  large_text : Option String := none
  small_image : Option String := none
  small_text : Option String := none
deriving DecidableEq

/-- A Discord Activity dictionary (fixed key set, optional entries). -/
structure Activity where
  name : String
  type : Int
  application_id : Option String := none
  details : Option String := none
  state : Option String := none
  assets : Option ActivityAssets := none
  buttons : Option (List String) := none
  metadata : Option (List String) := none
  timestamps : Option ℤ := none
deriving DecidableEq

/-- `resolve_image` (nested in build_activity, discord.py lines 154-163):
look the key up in the asset map; empty keys and unmapped keys pass through
unchanged (the warning is a side effect with no data-flow impact). -/
def resolve_image (asset_map : Option (List (String × String))) (key : String) : String :=
  if key = "" then key
  else match asset_map with
    | some m =>
      match m.lookup key with
      | some v => v
      | none => key
    | none => key

/-- `build_activity(config, start_ts, asset_map)` (discord.py lines 123-196).
`now` models the `time.time()` call made inside the `custom` branch. -/
def build_activity (c : AppConfig) (start_ts : ℚ)
    (asset_map : Option (List (String × String))) (now : ℚ) : Activity :=
  let base : Activity := { name := c.game_name, type := c.activity_type }
  let withRich : Activity :=
    if c.application_id ≠ "" ∧ c.application_id ≠ "你的ApplicationID" then
      let assets : Option ActivityAssets :=
        if c.large_image_key = "" ∧ c.large_image_text = "" ∧
           c.small_image_key = "" ∧ c.small_image_text = "" then none
        else some
          { large_image := if c.large_image_key ≠ "" then
              some (resolve_image asset_map c.large_image_key) else none
            large_text := if c.large_image_text ≠ "" then
              some c.large_image_text else none
            small_image := if c.small_image_key ≠ "" then
              some (resolve_image asset_map c.small_image_key) else none
            small_text := if c.small_image_text ≠ "" then
              some c.small_image_text else none }
      { base with
        application_id := some c.application_id
        details := if c.details ≠ "" then some c.details else none
        state := if c.state ≠ "" then some c.state else none
        assets := assets
        buttons := if c.buttons ≠ [] then some (c.buttons.map Prod.fst) else none
        metadata := if c.buttons ≠ [] then some (c.buttons.map Prod.snd) else none }
    else base
  if c.start_time_mode = "auto" then
    { withRich with timestamps := some (pyInt (start_ts * 1000)) }
  else if c.start_time_mode = "custom" then
    { withRich with
      timestamps := some (pyInt ((now - (c.custom_elapsed_minutes : ℚ) * 60) * 1000)) }
  else withRich

/-- A full Presence Update payload, opcode 3 (discord.py lines 199-222). -/
structure PresencePayload where
  op : Nat
  since : Int
  activities : List Activity
  status : String
  afk : Bool
deriving DecidableEq

/-- `build_presence_payload(config, start_ts, asset_map)`
(discord.py lines 199-222). -/
def build_presence_payload (c : AppConfig) (start_ts : ℚ)
    (asset_map : Option (List (String × String))) (now : ℚ) : PresencePayload :=
  { op := OpCode.PRESENCE_UPDATE
    since := 0
    activities := [build_activity c start_ts asset_map now]
    status := c.status
    afk := false }

-- ═══════════════════════════════════════════════════════════
-- Gateway messages, payloads and client state (discord.py GatewayClient)
-- ═══════════════════════════════════════════════════════════

/-- An inbound Gateway message envelope `{op, d, s, t}`, with the `d` fields
the client reads flattened into `d`-prefixed fields. -/
structure GatewayMsg where
  op : Nat
  s : Option Int := none
  t : Option String := none
  dSessionId : Option String := none
  dResumeUrl : Option String := none
  dResumable : Bool := false
  dHeartbeatInterval : ℚ := 0
deriving DecidableEq

/-- An outbound payload sent over the WebSocket, tagged by opcode, carrying
the fields the client fills in (`_send_heartbeat`, `_send_identify`,
`_send_resume`, `_update_presence`). -/
inductive Payload where
  | heartbeat (seq : Option Int)
  | identify (token : String) (activity : Activity) (status : String)
  | resume (token : String) (session_id : Option String) (seq : Option Int)
  | presence (p : PresencePayload)
deriving DecidableEq

/-- True exactly on Presence-Update (opcode 3) payloads. -/
def isPresenceSend : Payload → Bool
  | Payload.presence _ => true
  | _ => false

/-- The mutable per-client session fields of `GatewayClient`
(`_sequence`, `_session_id`, `_resume_url`, `_heartbeat_acked`,
`_heartbeat_interval`). -/
structure ClientState where
  sequence : Option Int := none
  session_id : Option String := none
  resume_url : Option String := none
  heartbeat_acked : Bool := true
  heartbeat_interval : ℚ := 41.25
deriving DecidableEq

/-- `GatewayClient._update_presence` (discord.py lines 635-646): builds the
presence payload once and sends it — twice. -/
def update_presence (c : AppConfig) (start_ts : ℚ)
    (asset_map : Option (List (String × String))) (now : ℚ) : List Payload :=
  let payload := Payload.presence (build_presence_payload c start_ts asset_map now)
  [payload, payload]

/-- `GatewayClient._handle_dispatch` (discord.py lines 467-492): READY stores
the session id and resume URL and updates presence; RESUMED updates presence;
every other event is ignored. Returns the new state and the payloads sent. -/
def handle_dispatch (c : AppConfig) (start_ts : ℚ)
    (asset_map : Option (List (String × String))) (now : ℚ)
    (st : ClientState) (msg : GatewayMsg) : ClientState × List Payload :=
  if msg.t = some "READY" then
    ({ st with session_id := msg.dSessionId, resume_url := msg.dResumeUrl },
     update_presence c start_ts asset_map now)
  else if msg.t = some "RESUMED" then
    (st, update_presence c start_ts asset_map now)
  else (st, [])

/-- An observable action of the listen loop or heartbeat loop: a WebSocket
send, a close with a code, the `random.uniform(1, 5)` sleep of the
invalid-session branch, or returning from the loop. -/
inductive ListenAction where
  | send (p : Payload)
  | close (code : Nat)
  | sleepJitter
  | exitLoop
deriving DecidableEq

/-- One iteration of the `async for` body of `GatewayClient._listen`
(discord.py lines 420-465) on an already-decoded message: the sequence
number is stored first, then the opcode is dispatched. -/
def listenStep (c : AppConfig) (start_ts : ℚ)
    (asset_map : Option (List (String × String))) (now : ℚ)
    (st : ClientState) (msg : GatewayMsg) : ClientState × List ListenAction :=
  let st := match msg.s with
    | some v => { st with sequence := some v }
    | none => st
  if msg.op = OpCode.DISPATCH then
    let r := handle_dispatch c start_ts asset_map now st msg
    (r.1, r.2.map ListenAction.send)
  else if msg.op = OpCode.HEARTBEAT then
    (st, [ListenAction.send (Payload.heartbeat st.sequence)])
  else if msg.op = OpCode.HEARTBEAT_ACK then
    ({ st with heartbeat_acked := true }, [])
  else if msg.op = OpCode.RECONNECT then
    (st, [ListenAction.close 4000, ListenAction.exitLoop])
  else if msg.op = OpCode.INVALID_SESSION then
    let st' := if msg.dResumable then st
      else { st with session_id := none, sequence := none, resume_url := none }
    (st', [ListenAction.sleepJitter, ListenAction.close 4000, ListenAction.exitLoop])
  else (st, [])

/-- One iteration of the `while True` body of
`GatewayClient._heartbeat_loop` (discord.py lines 663-671): an unacked
previous heartbeat force-closes; otherwise the flag is cleared and a
heartbeat is sent. -/
def heartbeatLoopStep (st : ClientState) : ClientState × List ListenAction :=
  if st.heartbeat_acked = false then
    (st, [ListenAction.close 4000, ListenAction.exitLoop])
  else
    ({ st with heartbeat_acked := false },
     [ListenAction.send (Payload.heartbeat st.sequence)])

/-- The Hello handling of `GatewayClient._session` (discord.py lines
363-381) up to the first outbound send: a non-Hello first message aborts
(no send); on Hello the heartbeat interval is captured and the first
outbound payload is Resume when `self._session_id` is truthy and
`self._sequence is not None`, else Identify. -/
def sessionFirstOutbound (c : AppConfig) (start_ts : ℚ)
    (asset_map : Option (List (String × String))) (now : ℚ)
    (st : ClientState) (msg : GatewayMsg) : ClientState × Option Payload :=
  if msg.op ≠ OpCode.HELLO then (st, none)
  else
    let st' := { st with
      heartbeat_interval := msg.dHeartbeatInterval / 1000
      heartbeat_acked := true }
    if pyTruthy st'.session_id ∧ st'.sequence.isSome then
      (st', some (Payload.resume c.token st'.session_id st'.sequence))
    else
      (st', some (Payload.identify c.token (build_activity c start_ts asset_map now) c.status))

-- ═══════════════════════════════════════════════════════════
-- Frame decoder (discord.py: GatewayClient._decode_message, _recv, _listen)
-- ═══════════════════════════════════════════════════════════

/-- A raw WebSocket message: compressed binary bytes or a text frame
(the text payload is modelled by its byte sequence). -/
inductive WsFrame where
  | binary (raw : List Nat)
  | text (raw : List Nat)
deriving DecidableEq

/-- The `zlib.decompressobj()` instance `self._inflator`: its state is the
compressed input consumed so far. An abstract stream decompressor
`inflate`, mapping total compressed input to total decompressed output,
stands in for zlib itself. -/
structure Inflator where
  consumed : List Nat
deriving DecidableEq

/-- `self._inflator.decompress(raw)`: returns only the decompressed bytes
newly produced by this call, and advances the stream state. -/
def decompressStep (inflate : List Nat → List Nat) (st : Inflator)
    (raw : List Nat) : List Nat × Inflator :=
  ((inflate (st.consumed ++ raw)).drop (inflate st.consumed).length,
   ⟨st.consumed ++ raw⟩)

/-- Python `raw[-4:]`: the last `n` elements (the whole list when shorter). -/
def lastBytes (n : Nat) (l : List Nat) : List Nat := l.drop (l.length - n)

/-- Outcome of `_decode_message`: a parsed message, `None` for an
incomplete zlib frame, or an uncaught `json.loads` / decode exception. -/
inductive DecodeResult (α : Type) where
  | emit (msg : α)
  | incomplete
  | raiseExc
deriving DecidableEq

/-- `GatewayClient._decode_message` (discord.py lines 498-513). `parse`
models `json.loads` (composed with UTF-8 decoding for the binary case);
`none` models the exception it raises on malformed input. For binary
frames the bytes of this call's `decompress` result — and only those —
are parsed, and only when the raw fragment ends in `ZLIB_SUFFIX`. -/
def decode_message {α : Type} (inflate : List Nat → List Nat)
    (parse : List Nat → Option α) (st : Inflator) (fr : WsFrame) :
    DecodeResult α × Inflator :=
  match fr with
  | WsFrame.binary raw =>
    let r := decompressStep inflate st raw
    if lastBytes 4 raw ≠ ZLIB_SUFFIX then (DecodeResult.incomplete, r.2)
    else
      match parse r.1 with
      | some a => (DecodeResult.emit a, r.2)
      | none => (DecodeResult.raiseExc, r.2)
  | WsFrame.text raw =>
    match parse raw with
    | some a => (DecodeResult.emit a, st)
    | none => (DecodeResult.raiseExc, st)

/-- The frame-decoding skeleton of `GatewayClient._listen` (discord.py
lines 420-423): decode each arriving frame; `None` results are skipped
with `continue`; a decode exception propagates (there is no handler in
`_listen`), aborting the loop. Returns the emitted messages in order and
whether the loop was aborted by an exception. -/
def listenDecodeRun {α : Type} (inflate : List Nat → List Nat)
    (parse : List Nat → Option α) (st : Inflator) :
    List WsFrame → List α × Bool
  | [] => ([], false)
  | fr :: rest =>
    match decode_message inflate parse st fr with
    | (DecodeResult.emit a, st') =>
      let r := listenDecodeRun inflate parse st' rest
      (a :: r.1, r.2)
    | (DecodeResult.incomplete, st') => listenDecodeRun inflate parse st' rest
    | (DecodeResult.raiseExc, _) => ([], true)

/-- `GatewayClient._recv` (discord.py lines 524-538): decode one message;
any exception is caught and `None` is returned. -/
def recvOnce {α : Type} (inflate : List Nat → List Nat)
    (parse : List Nat → Option α) (st : Inflator) (fr : WsFrame) :
    Option α × Inflator :=
  match decode_message inflate parse st fr with
  | (DecodeResult.emit a, st') => (some a, st')
  | (DecodeResult.incomplete, st') => (none, st')
  | (DecodeResult.raiseExc, st') => (none, st')

-- ═══════════════════════════════════════════════════════════
-- Reconnect policy (discord.py: GatewayClient.run, lines 285-350)
-- ═══════════════════════════════════════════════════════════

/-- The loop-carried state of `GatewayClient.run`: the current backoff
delay, `self._reconnect_count`, and `self._running`. -/
structure RunState where
  delay : ℚ
  reconnect_count : Nat
  running : Bool
deriving DecidableEq

/-- `delay = min(delay * 1.5, 120)` (discord.py line 350). -/
def backoffNext (d : ℚ) : ℚ := pyMin (d * (3 / 2)) 120

/-- The backoff delay before the (n+1)-th retry across consecutive failed
attempts (no successful connect in between), starting from `base`. -/
def delaySeq (base : ℚ) : Nat → ℚ
  | 0 => base
  | n + 1 => backoffNext (delaySeq base n)

/-- One iteration of the `while self._running` body of `GatewayClient.run`
(discord.py lines 294-350).

* `connected`: whether `websockets.connect` succeeded — if so, `delay` and
  `reconnect_count` are reset immediately (lines 307-308), before the
  session runs;
* `closeCode`: the close code when the attempt ended in
  `ConnectionClosedError` (`none` for a missing code or any other ending) —
  a fatal code stops the loop (lines 320-323);
* `stopRequested`: whether `self._running` was set `False` during the
  attempt (by `stop()` or by a fatal code seen inside `_session`),
  checked at line 331;
* `jitter`: the `random.uniform(0, delay)` draw.

Returns the next loop state and `some wait` when the loop sleeps and
retries, `none` when it breaks. -/
def runIteration (base : ℚ) (maxR : Nat) (st : RunState) (connected : Bool)
    (closeCode : Option Nat) (stopRequested : Bool) (jitter : ℚ) :
    RunState × Option ℚ :=
  let st1 := if connected then { st with delay := base, reconnect_count := 0 } else st
  if (match closeCode with
      | some code => decide (code ∈ FATAL_CLOSE_CODES)
      | none => false) then
    ({ st1 with running := false }, none)
  else if stopRequested then ({ st1 with running := false }, none)
  else
    let st2 := { st1 with reconnect_count := st1.reconnect_count + 1 }
    if 0 < maxR ∧ maxR < st2.reconnect_count then
      ({ st2 with running := false }, none)
    else
      ({ st2 with delay := backoffNext st2.delay }, some (st2.delay + jitter))

-- ═══════════════════════════════════════════════════════════
-- Concrete fixtures used by the theorems below
-- ═══════════════════════════════════════════════════════════

/-- A minimal configuration: no application id, no timestamps. -/
def cPlain : AppConfig := { game_name := "Game", start_time_mode := "none" }

/-- `cPlain` in custom start-time mode with 30 configured minutes. -/
def cCustom : AppConfig :=
  { cPlain with start_time_mode := "custom", custom_elapsed_minutes := 30 }

/-- `cPlain` in auto start-time mode. -/
def cAuto : AppConfig := { cPlain with start_time_mode := "auto" }

/-- `cPlain` in auto mode with 30 saved minutes. -/
def cAutoSaved : AppConfig :=
  { cPlain with start_time_mode := "auto", auto_save_minutes := 30 }

/-- A fresh client state, as set up in `__init__`. -/
def st0 : ClientState := {}

/-- A client state with a known sequence number. -/
def stHb : ClientState := { sequence := some 7 }

/-- A continuity store holding an empty-string session id and sequence 42. -/
def stEmptySid : ClientState := { sequence := some 42, session_id := some "" }

/-- A continuity store holding session id "abc" and sequence 42. -/
def stResume : ClientState := { sequence := some 42, session_id := some "abc" }

/-- A READY dispatch carrying a session id and resume URL. -/
def readyMsg : GatewayMsg :=
  { op := 0, s := some 1, t := some "READY",
    dSessionId := some "abc", dResumeUrl := some "wss://resume.example" }

/-- An unrelated dispatch event. -/
def otherMsg : GatewayMsg := { op := 0, s := some 2, t := some "GUILD_CREATE" }

/-- A server-requested heartbeat, opcode 1. -/
def msgHb : GatewayMsg := { op := 1 }

/-- A Hello message, opcode 10, with a 41250 ms heartbeat interval. -/
def helloMsg : GatewayMsg := { op := 10, dHeartbeatInterval := 41250 }

/-- A run-loop state after five failed attempts with a grown delay. -/
def rsEx : RunState := { delay := 50, reconnect_count := 5, running := true }

-- ═══════════════════════════════════════════════════════════
-- C9 / C10: configuration accessors
-- ═══════════════════════════════════════════════════════════

/-- Claim C9: the effective config hot-reload poll interval is at least 15
seconds; the accessor returns the maximum of the configured value and 15,
even when the file configures a smaller value (or none at all). -/
theorem C9_confirmed :
    (∀ v : Option Int, 15 ≤ config_reload_interval v) ∧
    (∀ v : Option Int, config_reload_interval v = max (v.getD 60) 15) ∧
    config_reload_interval (some 3) = 15 ∧
    config_reload_interval (some 60) = 60 ∧
    config_reload_interval none = 60 := by
  refine ⟨?_, ?_, by decide, by decide, by decide⟩
  · intro v
    unfold config_reload_interval pyMax
    split_ifs with h
    · omega
    · omega
  · intro v
    unfold config_reload_interval pyMax
    rcases le_total (v.getD 60) 15 with h | h
    · rw [max_eq_right h]
      split_ifs with h' <;> omega
    · rw [max_eq_left h]
      split_ifs with h' <;> omega

/-- Claim C10: at construction, with start_time_mode "auto" and a positive
saved minutes value, the start timestamp is the current time minus
saved-minutes × 60 seconds; in every other case it is the current time. -/
theorem C10_confirmed (c : AppConfig) (now : ℚ) :
    (c.start_time_mode = "auto" → 0 < c.auto_save_minutes →
      initStartTs c now = now - c.auto_save_minutes * 60) ∧
    (c.start_time_mode ≠ "auto" → initStartTs c now = now) ∧
    (c.auto_save_minutes ≤ 0 → initStartTs c now = now) := by
  unfold initStartTs
  split_ifs with h
  · exact ⟨fun _ _ => rfl, fun hm => absurd h.1 hm, fun hs => absurd h.2 (not_lt.mpr hs)⟩
  · refine ⟨fun hm hs => absurd ⟨hm, hs⟩ h, fun _ => rfl, fun _ => rfl⟩

/-- Witness for C10 at a concrete configuration: auto mode with 30 saved
minutes and now = 10000 restores 10000 − 1800. -/
theorem C10_witness : initStartTs cAutoSaved 10000 = 8200 := by
  have h := (C10_confirmed cAutoSaved 10000).1 rfl (by norm_num [cAutoSaved, cPlain])
  rw [h]
  norm_num [cAutoSaved, cPlain]

-- ═══════════════════════════════════════════════════════════
-- C1: READY dispatch — presence is sent twice, not once
-- ═══════════════════════════════════════════════════════════

/-- Claim C1 (code bug): on a READY dispatch the session id is updated, but
the client sends the Presence-Update payload TWICE (`_update_presence`
calls `_send(payload)` twice), not exactly once as the claim states; an
unrelated dispatch event sends nothing. -/
theorem C1_code_bug :
    (handle_dispatch cPlain 0 none 0 st0 readyMsg).1.session_id = some "abc" ∧
    ((handle_dispatch cPlain 0 none 0 st0 readyMsg).2.countP isPresenceSend) = 2 ∧
    (handle_dispatch cPlain 0 none 0 st0 otherMsg).2 = [] := by
  decide

-- ═══════════════════════════════════════════════════════════
-- C2: split compressed frames — earlier decompressed bytes are lost
-- ═══════════════════════════════════════════════════════════

/-- Claim C2 (code bug): a logical message split across two binary
fragments. With the identity stream decompressor and a parser that returns
the buffer it was handed, the first fragment (no trailing marker)
decompresses to the byte 65, yet the message finally emitted on the
marker-bearing second fragment is built from `[0, 0, 255, 255]` alone:
`_decode_message` keeps `buf` local, so the bytes decompressed from the
earlier incomplete fragment are discarded instead of being included, as
the claim requires. -/
theorem C2_code_bug :
    listenDecodeRun (fun l => l) (fun l => some l) ⟨[]⟩
      [WsFrame.binary [65], WsFrame.binary [0, 0, 255, 255]] =
      ([[0, 0, 255, 255]], false) ∧
    decompressStep (fun l => l) ⟨[]⟩ [65] = ([65], ⟨[65]⟩) ∧
    (65 : Nat) ∉ [0, 0, 255, 255] := by
  decide

-- ═══════════════════════════════════════════════════════════
-- C3: malformed frames in the dispatch loop raise, they are not dropped
-- ═══════════════════════════════════════════════════════════

/-- Claim C3 is false as stated: a malformed text frame (the parser models
`json.loads` raising) is NOT classified as a dropped frame — `_listen` has
no handler, so the decode exception propagates and aborts the loop. -/
theorem C3_counterexample :
    (decode_message (fun l => l) (fun _ => (none : Option Nat)) ⟨[]⟩
        (WsFrame.text [123])).1 = DecodeResult.raiseExc ∧
    (decode_message (fun l => l) (fun _ => (none : Option Nat)) ⟨[]⟩
        (WsFrame.text [123])).1 ≠ DecodeResult.incomplete ∧
    listenDecodeRun (fun l => l) (fun _ => (none : Option Nat)) ⟨[]⟩
        [WsFrame.text [123]] = ([], true) := by
  decide

/-- Claim C3 amended: a malformed frame makes `_decode_message` raise,
which aborts the dispatch loop and with it the connection attempt; only
`_recv` (used for the initial Hello) catches the exception and drops the
frame; the run loop treats the escaped exception as non-fatal and keeps
running (retries). -/
theorem C3_amended {α : Type} (inflate : List Nat → List Nat)
    (parse : List Nat → Option α) (st : Inflator) (raw : List Nat)
    (h : parse raw = none) :
    decode_message inflate parse st (WsFrame.text raw) =
      (DecodeResult.raiseExc, st) ∧
    recvOnce inflate parse st (WsFrame.text raw) = (none, st) ∧
    (∀ rst : RunState, rst.running = true →
      (runIteration 5 0 rst true none false 0).1.running = true) := by
  refine ⟨?_, ?_, ?_⟩
  · simp [decode_message, h]
  · simp [recvOnce, decode_message, h]
  · intro rst hr
    simp [runIteration, hr]

/-- Witness for C3's amended theorem at a concrete malformed frame. -/
theorem C3_witness :
    decode_message (fun l => l) (fun _ => (none : Option Nat)) ⟨[]⟩
      (WsFrame.text [123]) = (DecodeResult.raiseExc, ⟨[]⟩) ∧
    recvOnce (fun l => l) (fun _ => (none : Option Nat)) ⟨[]⟩
      (WsFrame.text [123]) = (none, ⟨[]⟩) ∧
    (runIteration 5 0 ⟨50, 5, true⟩ true none false 0).1.running = true := by
  have h := C3_amended (fun l => l) (fun _ => (none : Option Nat)) ⟨[]⟩ [123] rfl
  exact ⟨h.1, h.2.1, h.2.2 ⟨50, 5, true⟩ rfl⟩

-- ═══════════════════════════════════════════════════════════
-- C4: server-requested heartbeat does not mark unacknowledged
-- ═══════════════════════════════════════════════════════════

/-- Claim C4 is false as stated: on opcode 1 the client does send one
heartbeat immediately, but the handler calls only `_send_heartbeat`, which
never touches `_heartbeat_acked` — the flag stays `true`, it is not set to
`false` as the claim requires. -/
theorem C4_counterexample :
    (listenStep cPlain 0 none 0 stHb msgHb).2 =
      [ListenAction.send (Payload.heartbeat (some 7))] ∧
    (listenStep cPlain 0 none 0 stHb msgHb).1.heartbeat_acked ≠ false := by
  decide

/-- Claim C4 amended: the out-of-band heartbeat is sent immediately,
carrying the current sequence, but leaves the acknowledged flag unchanged;
only the periodic heartbeat loop marks unacknowledged before sending, and
a HeartbeatAck sets the flag to true. -/
theorem C4_amended (c : AppConfig) (start_ts : ℚ)
    (m : Option (List (String × String))) (now : ℚ)
    (st : ClientState) (msg : GatewayMsg) (hop : msg.op = OpCode.HEARTBEAT) :
    (listenStep c start_ts m now st msg).2 =
      [ListenAction.send
        (Payload.heartbeat (listenStep c start_ts m now st msg).1.sequence)] ∧
    (listenStep c start_ts m now st msg).1.heartbeat_acked =
      st.heartbeat_acked ∧
    (∀ st2 : ClientState, st2.heartbeat_acked = true →
      heartbeatLoopStep st2 = ({ st2 with heartbeat_acked := false },
        [ListenAction.send (Payload.heartbeat st2.sequence)])) ∧
    (∀ (st3 : ClientState) (msg3 : GatewayMsg),
      msg3.op = OpCode.HEARTBEAT_ACK →
      (listenStep c start_ts m now st3 msg3).1.heartbeat_acked = true) := by
  refine ⟨?_, ?_, ?_, ?_⟩
  · cases hs : msg.s <;>
      simp [listenStep, hop, hs, OpCode.HEARTBEAT, OpCode.DISPATCH]
  · cases hs : msg.s <;>
      simp [listenStep, hop, hs, OpCode.HEARTBEAT, OpCode.DISPATCH]
  · intro st2 h2
    simp [heartbeatLoopStep, h2]
  · intro st3 msg3 h3
    cases hs : msg3.s <;>
      simp [listenStep, h3, hs, OpCode.HEARTBEAT_ACK, OpCode.DISPATCH,
        OpCode.HEARTBEAT]

/-- Witness for C4's amended theorem at a concrete opcode-1 message. -/
theorem C4_witness :
    (listenStep cPlain 0 none 0 stHb msgHb).2 =
      [ListenAction.send
        (Payload.heartbeat (listenStep cPlain 0 none 0 stHb msgHb).1.sequence)] ∧
    (listenStep cPlain 0 none 0 stHb msgHb).1.heartbeat_acked =
      stHb.heartbeat_acked :=
  ⟨(C4_amended cPlain 0 none 0 stHb msgHb rfl).1,
   (C4_amended cPlain 0 none 0 stHb msgHb rfl).2.1⟩

-- ═══════════════════════════════════════════════════════════
-- C5: counters reset on successful connect, not on Established
-- ═══════════════════════════════════════════════════════════

/-- Claim C5 is false as stated: after five failed attempts (count 5,
delay 50), an attempt that connects but fails before Ready/Resumed (the
session ends without reaching Established, no fatal code, no stop) leaves
the loop with count 1 — the counter and delay were reset by the mere
successful `websockets.connect` (lines 307-308) — and the next wait is
the base delay 5, not 50. The claim requires count 6 here. -/
theorem C5_counterexample :
    (runIteration 5 0 rsEx true none false 0).1.reconnect_count = 1 ∧
    (runIteration 5 0 rsEx true none false 0).1.reconnect_count ≠ 6 ∧
    (runIteration 5 0 rsEx true none false 0).2 = some 5 := by
  refine ⟨?_, ?_, ?_⟩ <;> simp [runIteration, rsEx]

/-- Claim C5 amended: the attempt counter and delay are reset to base
exactly when the WebSocket connection is established — before the session
handshake — so even an attempt failing before Ready/Resumed resets them;
an attempt whose connect call itself fails does not reset them. -/
theorem C5_amended (base : ℚ) (maxR : Nat) (st : RunState) (j : ℚ)
    (hmax : maxR = 0) :
    ((runIteration base maxR st true none false j).1.reconnect_count = 1 ∧
     (runIteration base maxR st true none false j).1.delay = backoffNext base ∧
     (runIteration base maxR st true none false j).2 = some (base + j)) ∧
    ((runIteration base maxR st false none false j).1.reconnect_count =
        st.reconnect_count + 1 ∧
     (runIteration base maxR st false none false j).1.delay =
        backoffNext st.delay ∧
     (runIteration base maxR st false none false j).2 =
        some (st.delay + j)) := by
  subst hmax
  simp [runIteration]

/-- Witness for C5's amended theorem at the concrete state `rsEx`. -/
theorem C5_witness :
    ((runIteration 5 0 rsEx true none false 0).1.reconnect_count = 1 ∧
     (runIteration 5 0 rsEx true none false 0).1.delay = backoffNext 5 ∧
     (runIteration 5 0 rsEx true none false 0).2 = some (5 + 0)) ∧
    ((runIteration 5 0 rsEx false none false 0).1.reconnect_count =
        rsEx.reconnect_count + 1 ∧
     (runIteration 5 0 rsEx false none false 0).1.delay =
        backoffNext rsEx.delay ∧
     (runIteration 5 0 rsEx false none false 0).2 =
        some (rsEx.delay + 0)) :=
  C5_amended 5 0 rsEx 0 rfl

-- ═══════════════════════════════════════════════════════════
-- C6: backoff growth and the 120-second ceiling
-- ═══════════════════════════════════════════════════════════

/-- The backoff delay stays positive when the base is positive. -/
theorem delaySeq_pos (base : ℚ) (hb : 0 < base) (n : Nat) :
    0 < delaySeq base n := by
  induction n with
  | zero => simpa [delaySeq] using hb
  | succ n ih =>
    simp only [delaySeq, backoffNext, pyMin]
    split_ifs with h
    · linarith
    · norm_num

/-- The backoff delay never exceeds 120 when the base does not. -/
theorem delaySeq_le_120 (base : ℚ) (hb : base ≤ 120) (n : Nat) :
    delaySeq base n ≤ 120 := by
  induction n with
  | zero => simpa [delaySeq] using hb
  | succ n ih =>
    simp only [delaySeq, backoffNext, pyMin]
    split_ifs with h
    · exact h
    · exact le_rfl

/-- Claim C6 is false as stated: from base 5 the delay reaches the 120 s
ceiling after eight failed attempts and stays there, so the sequence does
not strictly increase at every failed attempt. -/
theorem C6_counterexample : ¬ (delaySeq 5 8 < delaySeq 5 9) := by
  norm_num [delaySeq, backoffNext, pyMin]

/-- Claim C6 amended: from base 5 the delay strictly increases at each
failed attempt while it is below the 120 s ceiling, and since the delay
never exceeds 120, the wait `delay + jitter` (jitter drawn from
[0, delay]) never exceeds 120 plus the jitter term. -/
theorem C6_amended :
    (∀ n : Nat, delaySeq 5 n < 120 → delaySeq 5 n < delaySeq 5 (n + 1)) ∧
    (∀ (n : Nat) (j : ℚ), 0 ≤ j → j ≤ delaySeq 5 n →
      delaySeq 5 n + j ≤ 120 + j) := by
  constructor
  · intro n h
    have hpos : 0 < delaySeq 5 n := delaySeq_pos 5 (by norm_num) n
    simp only [delaySeq, backoffNext, pyMin]
    split_ifs with hle
    · linarith
    · exact h
  · intro n j _ _
    have hle := delaySeq_le_120 5 (by norm_num) n
    linarith

/-- Witness for C6's amended theorem at the first failed attempt. -/
theorem C6_witness :
    (delaySeq 5 0 < delaySeq 5 (0 + 1)) ∧ (delaySeq 5 0 + 0 ≤ 120 + 0) :=
  ⟨C6_amended.1 0 (by norm_num [delaySeq]),
   C6_amended.2 0 0 le_rfl (by norm_num [delaySeq])⟩

-- ═══════════════════════════════════════════════════════════
-- C7: presence builder determinism — broken by the clock read in custom mode
-- ═══════════════════════════════════════════════════════════

/-- `pyInt` on a natural number is that number. -/
theorem pyInt_natCast (n : ℕ) : pyInt (n : ℚ) = n := by
  simp [pyInt, Rat.num_natCast, Rat.den_natCast]

/-- In custom mode, the built timestamp is the truncated
`(now − configured-minutes × 60) × 1000`, for the fixture `cCustom`. -/
theorem cCustom_timestamps (ts now : ℚ) :
    (build_activity cCustom ts none now).timestamps =
      some (pyInt ((now - 1800) * 1000)) := by
  simp [build_activity, cCustom, cPlain]
  norm_num

/-- Claim C7 is false as stated: with start-time mode "custom", two calls
of the presence builder with the same configuration, the same start
timestamp and the same icon-lookup map, made at different wall-clock
times (the `now` of the `time.time()` call inside the custom branch),
build different payloads. -/
theorem C7_counterexample :
    build_presence_payload cCustom 0 none 1800 ≠
      build_presence_payload cCustom 0 none 3600 := by
  intro h
  have h2 : (build_activity cCustom 0 none 1800).timestamps =
      (build_activity cCustom 0 none 3600).timestamps := by
    have ha := congrArg PresencePayload.activities h
    simp only [build_presence_payload, List.cons.injEq, and_true] at ha
    rw [ha]
  rw [cCustom_timestamps, cCustom_timestamps] at h2
  have e1 : ((1800 : ℚ) - 1800) * 1000 = ((0 : ℕ) : ℚ) := by norm_num
  have e2 : ((3600 : ℚ) - 1800) * 1000 = ((1800000 : ℕ) : ℚ) := by norm_num
  rw [e1, e2, pyInt_natCast, pyInt_natCast] at h2
  simp at h2

/-- Claim C7 amended: the presence builder is deterministic in its explicit
inputs in the "auto" and "none" start-time modes; only the "custom" mode
additionally depends on the current clock, because it calls `time.time()`
when building the timestamp. -/
theorem C7_amended (c : AppConfig) (ts : ℚ)
    (m : Option (List (String × String))) (n1 n2 : ℚ)
    (h : c.start_time_mode ≠ "custom") :
    build_presence_payload c ts m n1 = build_presence_payload c ts m n2 := by
  have hb : build_activity c ts m n1 = build_activity c ts m n2 := by
    by_cases ha : c.start_time_mode = "auto"
    · simp only [build_activity]
      rw [if_pos ha, if_pos ha]
    · simp only [build_activity]
      rw [if_neg ha, if_neg ha, if_neg h, if_neg h]
  simp only [build_presence_payload, hb]

/-- Witness for C7's amended theorem in auto mode. -/
theorem C7_witness :
    build_presence_payload cAuto 0 none 1800 =
      build_presence_payload cAuto 0 none 3600 :=
  C7_amended cAuto 0 none 1800 3600 (by simp [cAuto, cPlain])

-- ═══════════════════════════════════════════════════════════
-- C8: Resume vs Identify after Hello — Python truthiness of the session id
-- ═══════════════════════════════════════════════════════════

/-- Claim C8 is false as stated: a continuity store holding the session id
`""` and sequence 42 holds both a session id and a sequence number, yet the
first outbound message is Identify, not Resume — the code tests the Python
truthiness of `self._session_id`, and an empty string is falsy. -/
theorem C8_counterexample :
    stEmptySid.session_id.isSome = true ∧
    stEmptySid.sequence.isSome = true ∧
    (sessionFirstOutbound cPlain 0 none 0 stEmptySid helloMsg).2 =
      some (Payload.identify cPlain.token (build_activity cPlain 0 none 0)
        cPlain.status) := by
  refine ⟨rfl, rfl, ?_⟩
  simp [sessionFirstOutbound, helloMsg, stEmptySid, OpCode.HELLO, pyTruthy]
  rw [if_neg (by decide)]

/-- Claim C8 amended: on Hello, the first outbound message is Resume
(carrying the stored session id and sequence) if and only if the stored
session id is truthy (present and non-empty) and a sequence number is
stored; otherwise the first outbound message is Identify. -/
theorem C8_amended (c : AppConfig) (ts : ℚ)
    (m : Option (List (String × String))) (now : ℚ)
    (st : ClientState) (msg : GatewayMsg) (hop : msg.op = OpCode.HELLO) :
    ((sessionFirstOutbound c ts m now st msg).2 =
        some (Payload.resume c.token st.session_id st.sequence) ↔
      (pyTruthy st.session_id = true ∧ st.sequence.isSome = true)) ∧
    (¬ (pyTruthy st.session_id = true ∧ st.sequence.isSome = true) →
      (sessionFirstOutbound c ts m now st msg).2 =
        some (Payload.identify c.token (build_activity c ts m now)
          c.status)) := by
  have hno : ¬ (msg.op ≠ OpCode.HELLO) := by simp [hop]
  unfold sessionFirstOutbound
  rw [if_neg hno]
  dsimp only
  by_cases hcond : pyTruthy st.session_id = true ∧ st.sequence.isSome = true
  · rw [if_pos hcond]
    exact ⟨⟨fun _ => hcond, fun _ => rfl⟩, fun hn => absurd hcond hn⟩
  · rw [if_neg hcond]
    exact ⟨⟨fun habs => absurd habs (by simp), fun hc => absurd hc hcond⟩,
      fun _ => rfl⟩

/-- Witness for C8's amended theorem: with stored session id "abc" and
sequence 42, the first outbound message is Resume carrying both. -/
theorem C8_witness :
    (sessionFirstOutbound cPlain 0 none 0 stResume helloMsg).2 =
      some (Payload.resume cPlain.token stResume.session_id
        stResume.sequence) :=
  (C8_amended cPlain 0 none 0 stResume helloMsg rfl).1.mpr (by decide)
